import Mathlib

/-!
Verification development for the `mcp-apple` repository's two core modules:

* `src/utils/webSearch.ts` — HTTP fetcher with retry/backoff (`makeRequest`),
  DuckDuckGo search-result extraction (`extractDDGResults`,
  `extractDDGResultsAlternative`, `searchDuckDuckGo`), main-content extraction
  (`extractMainContent`), page fetching (`fetchPageContent`) and the
  web-research pipeline (`webSearch`).
* `src/utils/message.ts` — phone-number canonicalization
  (`normalizePhoneNumber`), legacy attributed-body decoding
  (`decodeAttributedBody`) and the row-to-message mapping used by
  `readMessages` and `getUnreadMessages`.

The TypeScript code is embedded shallowly: strings become `List Char`,
JavaScript regular expressions become terms of a small regex AST evaluated by
a backtracking matcher that mirrors ECMAScript semantics (leftmost match,
lazy/greedy quantifiers, ordered alternation, optional `i`/`s`/`g` flags),
network and database I/O become explicit outcome parameters, and platform
builtins used by the code (`decodeURIComponent`, `new URL(...).hostname`,
`Buffer.from(hex)`, lossy UTF-8 decoding) are modelled as total Lean
functions over the fragment of their behaviour the code exercises.
-/

namespace McpApple

/-! ## JavaScript character classes and basic string helpers -/

/-- The code points matched by JavaScript `\s` (whitespace plus line
terminators), as ranges of code points. -/
def jsWsRanges : List (Nat × Nat) :=
  [(0x9, 0xd), (0x20, 0x20), (0xa0, 0xa0), (0x1680, 0x1680),
   (0x2000, 0x200a), (0x2028, 0x2029), (0x202f, 0x202f), (0x205f, 0x205f),
   (0x3000, 0x3000), (0xfeff, 0xfeff)]

/-- Does `c` match JavaScript `\s`? -/
def isJsWs (c : Char) : Bool :=
  jsWsRanges.any (fun r => decide (r.1 ≤ c.toNat) && decide (c.toNat ≤ r.2))

/-- JavaScript regex word character (`\w`), used for `\b` boundaries. -/
def isWordChar (c : Char) : Bool :=
  (decide ('a' ≤ c) && decide (c ≤ 'z')) || (decide ('A' ≤ c) && decide (c ≤ 'Z')) ||
  (decide ('0' ≤ c) && decide (c ≤ '9')) || decide (c = '_')

/-- ASCII lower-casing, the fragment of `toLowerCase` exercised here. -/
def lcChar (c : Char) : Char :=
  if 'A' ≤ c ∧ c ≤ 'Z' then Char.ofNat (c.toNat + 32) else c

/-- Character comparison, case-insensitive when `ic` is set (regex `i` flag). -/
def charEq (ic : Bool) (a b : Char) : Bool :=
  if ic then lcChar a == lcChar b else a == b

/-- Is the literal `pat` a prefix of `s` (under flag `ic`)? -/
def litHeads (ic : Bool) : List Char → List Char → Bool
  | [], _ => true
  | _ :: _, [] => false
  | p :: ps, c :: cs => charEq ic p c && litHeads ic ps cs

/-- `String.prototype.trim`: strip JavaScript whitespace from both ends. -/
def jsTrim (l : List Char) : List Char :=
  ((l.dropWhile isJsWs).reverse.dropWhile isJsWs).reverse

/-- Worker for `replaceLit`; `fuel` starts at the input length, which
suffices because every step consumes at least one character. -/
def replaceLitGo (pat rep : List Char) : Nat → List Char → List Char
  | _, [] => []
  | 0, l => l
  | fuel + 1, c :: cs =>
    if pat ≠ [] ∧ litHeads false pat (c :: cs) then
      rep ++ replaceLitGo pat rep fuel (cs.drop (pat.length - 1))
    else
      c :: replaceLitGo pat rep fuel cs

/-- Replace every (non-overlapping, leftmost) occurrence of the literal
`pat` by `rep`; models `String.prototype.replace` with a literal-only global
regex such as `/&amp;/g`. `pat` is assumed non-empty. -/
def replaceLit (pat rep : List Char) (l : List Char) : List Char :=
  replaceLitGo pat rep l.length l

/-! ## A small ECMAScript-style regex engine

Regexes from the source are transliterated into this AST.  The matcher is a
CPS backtracking matcher: ordered alternation, greedy and lazy quantifiers
(with the ECMAScript rule that a quantified body matching the empty string
ends the repetition), capture groups, negative lookahead, word boundaries and
end-of-input anchors.  `dot false` is `.` without the `s` flag (does not
match line terminators); `dot true` is `.` with `s`. -/

inductive RE where
  | eps : RE
  | lit : List Char → RE
  | cls : Bool → List (Nat × Nat) → RE      -- char class; Bool = negated
  | dot : Bool → RE                          -- Bool = dotAll (`s` flag)
  | seq : RE → RE → RE
  | alt : RE → RE → RE
  | star : Bool → RE → RE                    -- Bool = lazy
  | opt : Bool → RE → RE                     -- Bool = lazy
  | grp : Nat → RE → RE                      -- capture group
  | nla : RE → RE                            -- negative lookahead (?!...)
  | wb : RE                                  -- \b
  | eos : RE                                 -- $ (no multiline flag anywhere)
deriving Repr

/-- `a+` as `a · a*` (greedy or lazy). -/
def RE.plus (lazy : Bool) (a : RE) : RE := .seq a (.star lazy a)

/-- Sequence a list of regexes. -/
def reSeqs (l : List RE) : RE := l.foldr RE.seq .eps

/-- Ordered alternation of a non-empty list. -/
def reAlts : List RE → RE
  | [] => .eps
  | [a] => a
  | a :: rest => .alt a (reAlts rest)

/-- Character membership in a class given by code-point ranges. -/
def inRanges (rs : List (Nat × Nat)) (c : Char) : Bool :=
  rs.any (fun r => decide (r.1 ≤ c.toNat) && decide (c.toNat ≤ r.2))

/-- Class membership under negation flag and case-insensitivity. -/
def clsMem (ic neg : Bool) (rs : List (Nat × Nat)) (c : Char) : Bool :=
  let base := fun (x : Char) => inRanges rs x
  let hit := if ic then base c || base (lcChar c) ||
                  (if 'a' ≤ c ∧ c ≤ 'z' then base (Char.ofNat (c.toNat - 32)) else false)
             else base c
  if neg then !hit else hit

/-- Does `.` (with dotAll flag `da`) match `c`?  Without `s`, ECMAScript `.`
excludes LF, CR, LS and PS. -/
def dotMem (da : Bool) (c : Char) : Bool :=
  if da then true
  else !(c == '\n' || c == '\r' || decide (c.toNat = 0x2028) || decide (c.toNat = 0x2029))

/-- Captures: latest assignment to a group index shadows earlier ones. -/
abbrev Caps := List (Nat × List Char)

/-- Matcher result handed to continuations: remaining input, previous
character (for `\b`), captures. -/
abbrev MState := List Char × Option Char × Caps

/-- The CPS backtracking matcher.  `fuel` bounds recursion depth; callers
supply ample fuel, and fuel exhaustion yields `none` (no match).  `ic` is the
`i` flag. -/
def reRun (ic : Bool) : Nat → RE → List Char → Option Char → Caps →
    (List Char → Option Char → Caps → Option MState) → Option MState
  | 0, _, _, _, _, _ => none
  | _ + 1, .eps, s, pv, cp, k => k s pv cp
  | _ + 1, .lit pat, s, pv, cp, k =>
    if litHeads ic pat s then
      match pat with
      | [] => k s pv cp
      | _ :: _ => k (s.drop pat.length) ((s.take pat.length).getLast? <|> pv) cp
    else none
  | _ + 1, .cls neg rs, s, pv, cp, k =>
    match s with
    | [] => none
    | c :: cs => if clsMem ic neg rs c then k cs (some c) cp else (pv, cp) |> fun _ => none
  | _ + 1, .dot da, s, _, cp, k =>
    match s with
    | [] => none
    | c :: cs => if dotMem da c then k cs (some c) cp else none
  | fuel + 1, .seq a b, s, pv, cp, k =>
    reRun ic fuel a s pv cp (fun s2 pv2 cp2 => reRun ic fuel b s2 pv2 cp2 k)
  | fuel + 1, .alt a b, s, pv, cp, k =>
    match reRun ic fuel a s pv cp k with
    | some r => some r
    | none => reRun ic fuel b s pv cp k
  | fuel + 1, .star lzy a, s, pv, cp, k =>
    if lzy then
      match k s pv cp with
      | some r => some r
      | none =>
        reRun ic fuel a s pv cp (fun s2 pv2 cp2 =>
          if s2.length = s.length then none
          else reRun ic fuel (.star lzy a) s2 pv2 cp2 k)
    else
      match reRun ic fuel a s pv cp (fun s2 pv2 cp2 =>
          if s2.length = s.length then none
          else reRun ic fuel (.star lzy a) s2 pv2 cp2 k) with
      | some r => some r
      | none => k s pv cp
  | fuel + 1, .opt lzy a, s, pv, cp, k =>
    if lzy then
      match k s pv cp with
      | some r => some r
      | none => reRun ic fuel a s pv cp k
    else
      match reRun ic fuel a s pv cp k with
      | some r => some r
      | none => k s pv cp
  | fuel + 1, .grp i a, s, pv, cp, k =>
    reRun ic fuel a s pv cp (fun s2 pv2 cp2 =>
      k s2 pv2 ((i, s.take (s.length - s2.length)) :: cp2))
  | fuel + 1, .nla a, s, pv, cp, k =>
    match reRun ic fuel a s pv cp (fun s2 pv2 cp2 => some (s2, pv2, cp2)) with
    | some _ => none
    | none => k s pv cp
  | _ + 1, .wb, s, pv, cp, k =>
    let left := match pv with | some c => isWordChar c | none => false
    let right := match s with | c :: _ => isWordChar c | [] => false
    if left ≠ right then k s pv cp else none
  | _ + 1, .eos, s, pv, cp, k =>
    match s with
    | [] => k s pv cp
    | _ :: _ => none

/-- Structural size of a regex, used only to compute generous fuel. -/
def reSize : RE → Nat
  | .eps | .lit _ | .cls _ _ | .dot _ | .wb | .eos => 1
  | .seq a b | .alt a b => reSize a + reSize b + 1
  | .star _ a | .opt _ a | .grp _ a | .nla a => reSize a + 1

/-- A match of `re` anchored at the start of `s` (with previous character
`pv`): returns (number of consumed characters, captures). -/
def reMatchHere (ic : Bool) (re : RE) (s : List Char) (pv : Option Char) :
    Option (Nat × Caps) :=
  match reRun ic ((reSize re + 4) * (s.length + 4) * 4) re s pv []
      (fun s2 _ cp2 => some (s2, none, cp2)) with
  | some (s2, _, cp2) => some (s.length - s2.length, cp2)
  | none => none

/-- Leftmost match search from position `i` of `full` (ECMAScript semantics:
try every start position in order).  Returns (start index, length, captures). -/
def reSearchFrom (ic : Bool) (re : RE) (full : List Char) :
    Nat → Nat → Option (Nat × Nat × Caps)
  | _, 0 => none
  | i, cnt + 1 =>
    let s := full.drop i
    let pv := if i = 0 then none else (full.take i).getLast?
    match reMatchHere ic re s pv with
    | some (len, cp) => some (i, len, cp)
    | none =>
      if i < full.length then reSearchFrom ic re full (i + 1) cnt else none

/-- Leftmost match of `re` in `full` (like `String.prototype.match` without
the `g` flag). -/
def reSearch (ic : Bool) (re : RE) (full : List Char) : Option (Nat × Nat × Caps) :=
  reSearchFrom ic re full 0 (full.length + 1)

/-- All matches (like `.match` with `g`): leftmost, non-overlapping, empty
matches advance by one.  Each match starts at or after the previous scan
position and advances it by at least one, so `full.length + 1` iterations
always suffice. -/
def reGlobalFrom (ic : Bool) (re : RE) (full : List Char) :
    Nat → Nat → List (Nat × Nat × Caps)
  | _, 0 => []
  | i, cnt + 1 =>
    match reSearchFrom ic re full i (full.length + 1 - i) with
    | none => []
    | some (st, len, cp) =>
      (st, len, cp) :: reGlobalFrom ic re full (st + max len 1) cnt

/-- All matches of a `g`-flagged regex. -/
def reGlobal (ic : Bool) (re : RE) (full : List Char) : List (Nat × Nat × Caps) :=
  reGlobalFrom ic re full 0 (full.length + 1)

/-- Substring of `full` covered by a match `(start, len)`. -/
def matchSlice (full : List Char) (st len : Nat) : List Char :=
  (full.drop st).take len

/-- Value of capture group `i` (latest assignment wins). -/
def capGet (cp : Caps) (i : Nat) : Option (List Char) :=
  (cp.find? (fun p => p.1 = i)).map (·.2)

/-- First match of `re` in `s`, returning capture group 1
(`s.match(re)?.[1]`, for regexes that always bind group 1 when they match). -/
def matchGroup1 (ic : Bool) (re : RE) (s : List Char) : Option (List Char) :=
  match reSearch ic re s with
  | some (_, _, cp) => some ((capGet cp 1).getD [])
  | none => none

/-- Replace all matches of a `g`-flagged regex by the constant `rep`
(every `replace` in the embedded code uses a constant replacement). -/
def reReplaceAll (ic : Bool) (re : RE) (rep : List Char) (full : List Char) : List Char :=
  go 0 (reGlobal ic re full)
where
  go (pos : Nat) : List (Nat × Nat × Caps) → List Char
    | [] => full.drop pos
    | (st, len, _) :: rest =>
      (matchSlice full pos (st - pos)) ++ rep ++ go (st + len) rest

/-- Replace the first match of a non-`g` regex by the constant `rep`. -/
def reReplaceFirst (ic : Bool) (re : RE) (rep : List Char) (full : List Char) : List Char :=
  match reSearch ic re full with
  | none => full
  | some (st, len, _) => (full.take st) ++ rep ++ full.drop (st + len)

/-! ## Platform builtins used by the source

`decodeURIComponent` and `new URL(...).hostname` are JavaScript builtins the
extractors call; `Buffer.from(hex)` / `buffer.toString()` are Node builtins
the body decoder calls.  They are modelled as total Lean functions returning
`Option` where the builtin throws. -/

/-- Hex digit value. -/
def hexVal (c : Char) : Option Nat :=
  if '0' ≤ c ∧ c ≤ '9' then some (c.toNat - 48)
  else if 'a' ≤ c ∧ c ≤ 'f' then some (c.toNat - 87)
  else if 'A' ≤ c ∧ c ≤ 'F' then some (c.toNat - 55)
  else none

/-- `Buffer.from(hexString, 'hex')`: decodes hex pairs, truncating at the
first invalid pair (and dropping a trailing odd digit), never throwing. -/
def hexDecodeLossy : List Char → List Nat
  | c1 :: c2 :: rest =>
    match hexVal c1, hexVal c2 with
    | some a, some b => (a * 16 + b) :: hexDecodeLossy rest
    | _, _ => []
  | _ => []

/-- Strict UTF-8 decoding of a byte list (WHATWG ranges); `none` on any
invalid sequence.  Used by the `decodeURIComponent` model, which throws
`URIError` on malformed UTF-8. -/
def utf8Decode : List Nat → Option (List Char)
  | [] => some []
  | b :: rest =>
    if b < 0x80 then (utf8Decode rest).map (Char.ofNat b :: ·)
    else if 0xc2 ≤ b ∧ b ≤ 0xdf then
      match rest with
      | b2 :: rest2 =>
        if 0x80 ≤ b2 ∧ b2 ≤ 0xbf then
          (utf8Decode rest2).map (Char.ofNat ((b - 0xc0) * 64 + (b2 - 0x80)) :: ·)
        else none
      | _ => none
    else if 0xe0 ≤ b ∧ b ≤ 0xef then
      match rest with
      | b2 :: b3 :: rest2 =>
        let lo2 := if b = 0xe0 then 0xa0 else 0x80
        let hi2 := if b = 0xed then 0x9f else 0xbf
        if (lo2 ≤ b2 ∧ b2 ≤ hi2) ∧ (0x80 ≤ b3 ∧ b3 ≤ 0xbf) then
          (utf8Decode rest2).map
            (Char.ofNat ((b - 0xe0) * 4096 + (b2 - 0x80) * 64 + (b3 - 0x80)) :: ·)
        else none
      | _ => none
    else if 0xf0 ≤ b ∧ b ≤ 0xf4 then
      match rest with
      | b2 :: b3 :: b4 :: rest2 =>
        let lo2 := if b = 0xf0 then 0x90 else 0x80
        let hi2 := if b = 0xf4 then 0x8f else 0xbf
        if (lo2 ≤ b2 ∧ b2 ≤ hi2) ∧ (0x80 ≤ b3 ∧ b3 ≤ 0xbf) ∧ (0x80 ≤ b4 ∧ b4 ≤ 0xbf) then
          (utf8Decode rest2).map
            (Char.ofNat ((b - 0xf0) * 262144 + (b2 - 0x80) * 4096 + (b3 - 0x80) * 64 + (b4 - 0x80)) :: ·)
        else none
      | _ => none
    else none

/-- Second-byte range for a UTF-8 lead byte `b` (3- and 4-byte forms have
restricted ranges for some leads). -/
def utf8Cont2Range (b : Nat) : Nat × Nat :=
  if b = 0xe0 then (0xa0, 0xbf)
  else if b = 0xed then (0x80, 0x9f)
  else if b = 0xf0 then (0x90, 0xbf)
  else if b = 0xf4 then (0x80, 0x8f)
  else (0x80, 0xbf)

/-- Is `b2` a valid second byte after lead `b`? -/
def utf8Cont2Ok (b b2 : Nat) : Bool :=
  decide ((utf8Cont2Range b).1 ≤ b2) && decide (b2 ≤ (utf8Cont2Range b).2)

/-- Is `b` a plain continuation byte? -/
def utf8ContOk (b : Nat) : Bool := decide (0x80 ≤ b) && decide (b ≤ 0xbf)

/-- Worker for `utf8Lossy`; `fuel` starts at the byte-list length, which
suffices because every step consumes at least one byte. -/
def utf8LossyGo : Nat → List Nat → List Char
  | _, [] => []
  | 0, _ => []
  | fuel + 1, b :: rest =>
    if b < 0x80 then Char.ofNat b :: utf8LossyGo fuel rest
    else if 0xc2 ≤ b ∧ b ≤ 0xdf then
      match rest with
      | b2 :: rest2 =>
        if utf8ContOk b2 then
          Char.ofNat ((b - 0xc0) * 64 + (b2 - 0x80)) :: utf8LossyGo fuel rest2
        else Char.ofNat 0xfffd :: utf8LossyGo fuel (b2 :: rest2)
      | [] => [Char.ofNat 0xfffd]
    else if 0xe0 ≤ b ∧ b ≤ 0xef then
      match rest with
      | b2 :: rest2 =>
        if utf8Cont2Ok b b2 then
          match rest2 with
          | b3 :: rest3 =>
            if utf8ContOk b3 then
              Char.ofNat ((b - 0xe0) * 4096 + (b2 - 0x80) * 64 + (b3 - 0x80))
                :: utf8LossyGo fuel rest3
            else Char.ofNat 0xfffd :: utf8LossyGo fuel (b3 :: rest3)
          | [] => [Char.ofNat 0xfffd]
        else Char.ofNat 0xfffd :: utf8LossyGo fuel (b2 :: rest2)
      | [] => [Char.ofNat 0xfffd]
    else if 0xf0 ≤ b ∧ b ≤ 0xf4 then
      match rest with
      | b2 :: rest2 =>
        if utf8Cont2Ok b b2 then
          match rest2 with
          | b3 :: rest3 =>
            if utf8ContOk b3 then
              match rest3 with
              | b4 :: rest4 =>
                if utf8ContOk b4 then
                  Char.ofNat ((b - 0xf0) * 262144 + (b2 - 0x80) * 4096 +
                      (b3 - 0x80) * 64 + (b4 - 0x80)) :: utf8LossyGo fuel rest4
                else Char.ofNat 0xfffd :: utf8LossyGo fuel (b4 :: rest4)
              | [] => [Char.ofNat 0xfffd]
            else Char.ofNat 0xfffd :: utf8LossyGo fuel (b3 :: rest3)
          | [] => [Char.ofNat 0xfffd]
        else Char.ofNat 0xfffd :: utf8LossyGo fuel (b2 :: rest2)
      | [] => [Char.ofNat 0xfffd]
    else Char.ofNat 0xfffd :: utf8LossyGo fuel rest

/-- Lossy UTF-8 decoding (`buffer.toString()`): each maximal invalid
subsequence becomes one U+FFFD and decoding continues; never fails. -/
def utf8Lossy (bs : List Nat) : List Char :=
  utf8LossyGo bs.length bs

/-- A `decodeURIComponent` input token: a literal character or a `%XX` byte. -/
inductive UriTok where
  | raw : Char → UriTok
  | byte : Nat → UriTok
deriving DecidableEq

/-- Tokenize a `decodeURIComponent` input; `none` when a `%` is not followed
by two hex digits (the builtin throws `URIError` there). -/
def uriToks : List Char → Option (List UriTok)
  | [] => some []
  | '%' :: c1 :: c2 :: rest =>
    match hexVal c1, hexVal c2 with
    | some a, some b => (uriToks rest).map (.byte (a * 16 + b) :: ·)
    | _, _ => none
  | '%' :: _ => none
  | c :: rest => (uriToks rest).map (.raw c :: ·)

/-- Maximal leading run of escape bytes in a token list. -/
def takeBytes : List UriTok → List Nat × List UriTok
  | .byte b :: rest => ((takeBytes rest).1.cons b, (takeBytes rest).2)
  | l => ([], l)

theorem takeBytes_tail_le (l : List UriTok) : (takeBytes l).2.length ≤ l.length := by
  induction l with
  | nil => simp [takeBytes]
  | cons t rest ih =>
    cases t with
    | raw c => simp [takeBytes]
    | byte b => simpa [takeBytes] using Nat.le_succ_of_le ih

/-- Worker for `decodeToks`; `fuel` starts at the token-list length, which
suffices because every step consumes at least one token. -/
def decodeToksGo : Nat → List UriTok → Option (List Char)
  | _, [] => some []
  | 0, _ => none
  | fuel + 1, .raw c :: rest => (decodeToksGo fuel rest).map (c :: ·)
  | fuel + 1, .byte b :: rest =>
    match utf8Decode ((takeBytes rest).1.cons b) with
    | none => none
    | some cs => (decodeToksGo fuel (takeBytes rest).2).map (cs ++ ·)

/-- Decode a token list: each maximal run of escape bytes must be valid
UTF-8. -/
def decodeToks (ts : List UriTok) : Option (List Char) :=
  decodeToksGo ts.length ts

/-- `decodeURIComponent`: `none` models a thrown `URIError`. -/
def jsDecodeURIComponent (l : List Char) : Option (List Char) :=
  match uriToks l with
  | none => none
  | some ts => decodeToks ts

/-! ### `new URL(input).hostname`

Model of the WHATWG URL parser fragment the extractors exercise: scheme
parsing, authority/host extraction for special schemes, empty hostname for
non-special schemes.  `none` models a thrown `TypeError` (invalid URL). -/

/-- WHATWG: strip tab, LF and CR anywhere, and C0-control-or-space from both
ends, before parsing. -/
def urlPreprocess (l : List Char) : List Char :=
  let noTabNl := l.filter (fun c => !(c == '\t' || c == '\n' || c == '\r'))
  ((noTabNl.dropWhile (fun c => c.toNat ≤ 0x20)).reverse.dropWhile
      (fun c => c.toNat ≤ 0x20)).reverse

/-- Split a leading URL scheme: ALPHA followed by ALPHA/DIGIT/`+`/`-`/`.`
then `:`.  Returns (lower-cased scheme, rest after the colon). -/
def splitScheme (l : List Char) : Option (List Char × List Char) :=
  match l with
  | c :: _ =>
    if ('a' ≤ c ∧ c ≤ 'z') ∨ ('A' ≤ c ∧ c ≤ 'Z') then
      let isSchemeChar := fun (x : Char) =>
        ('a' ≤ x ∧ x ≤ 'z') ∨ ('A' ≤ x ∧ x ≤ 'Z') ∨ ('0' ≤ x ∧ x ≤ '9') ∨
        x = '+' ∨ x = '-' ∨ x = '.'
      let name := l.takeWhile (fun x => decide (isSchemeChar x))
      match l.drop name.length with
      | ':' :: rest => some (name.map lcChar, rest)
      | _ => none
    else none
  | [] => none

/-- The WHATWG special schemes that carry an authority. -/
def specialSchemes : List (List Char) :=
  ["http".toList, "https".toList, "ws".toList, "wss".toList, "ftp".toList, "file".toList]

/-- Code points that may not appear in a (domain) host. -/
def forbiddenHostChar (c : Char) : Bool :=
  c == '\x00' || c == ' ' || c == '#' || c == '/' || c == ':' || c == '<' ||
  c == '>' || c == '?' || c == '@' || c == '[' || c == '\\' || c == ']' ||
  c == '^' || c == '|' || c == '%'

/-- `new URL(input).hostname` for the fragment exercised by the code:
`none` models a thrown `TypeError`. -/
def urlHostname (l : List Char) : Option (List Char) :=
  match splitScheme (urlPreprocess l) with
  | none => none
  | some (scheme, rest) =>
    if specialSchemes.contains scheme then
      -- skip any run of slashes (forward or back), then read the authority
      let afterSlashes := rest.dropWhile (fun c => c == '/' || c == '\\')
      let authority := afterSlashes.takeWhile
        (fun c => !(c == '/' || c == '\\' || c == '?' || c == '#'))
      -- strip userinfo: everything up to the last `@`
      let hostPort :=
        if authority.contains '@' then
          (authority.reverse.takeWhile (fun c => !(c == '@'))).reverse
        else authority
      let host := hostPort.takeWhile (fun c => !(c == ':'))
      if host = [] then
        if scheme = "file".toList then some [] else none
      else if host.any forbiddenHostChar then none
      else some (host.map lcChar)
    else
      -- non-special scheme: opaque host only after `//`; the code never
      -- reads past it, so both forms yield the written host or ""
      match rest with
      | '/' :: '/' :: r =>
        let authority := r.takeWhile (fun c => !(c == '/' || c == '?' || c == '#'))
        let hostPort :=
          if authority.contains '@' then
            (authority.reverse.takeWhile (fun c => !(c == '@'))).reverse
          else authority
        some (hostPort.takeWhile (fun c => !(c == ':')))
      | _ => some []

/-! ## `src/utils/webSearch.ts` — data model -/

structure SearchResult where
  title : String
  url : String
  displayUrl : String
  snippet : String
deriving DecidableEq, Repr

structure ContentResult where
  title : String
  url : String
  displayUrl : String
  snippet : String
  content : Option String
  error : Option String
deriving DecidableEq, Repr

structure SearchResponse where
  query : String
  results : List SearchResult
  error : Option String
deriving DecidableEq, Repr

structure ContentResponse where
  query : String
  results : List ContentResult
  error : Option String
deriving DecidableEq, Repr

/-! ## `cleanHTML` (webSearch.ts lines 84–104) -/

/-- Regex `/<[^>]+>/g`: an HTML tag. -/
def tagRe : RE := reSeqs [.lit "<".toList, RE.plus false (.cls true [(62, 62)]), .lit ">".toList]

/-- Regex `/\s+/g`. -/
def wsPlusRe : RE := RE.plus false (.cls false jsWsRanges)

/-- `cleanHTML(text)`: entity decoding, tag stripping, whitespace
normalization, exactly in source order. -/
def cleanHTML (text : List Char) : List Char :=
  if text = [] then []
  else
    let d := text
    let d := replaceLit "&amp;".toList "&".toList d
    let d := replaceLit "&lt;".toList "<".toList d
    let d := replaceLit "&gt;".toList ">".toList d
    let d := replaceLit "&quot;".toList "\"".toList d
    let d := replaceLit "&#x27;".toList "\x27".toList d
    let d := replaceLit "&#39;".toList "\x27".toList d
    let d := replaceLit "&nbsp;".toList " ".toList d
    let d := reReplaceAll false tagRe " ".toList d
    let d := reReplaceAll false wsPlusRe " ".toList d
    jsTrim d

/-! ## `extractDDGResults` (webSearch.ts lines 110–149) -/

/-- Regex `/<div class="serp__results">(.*?)<div class="(nav-link|feedback-btn)"/s`. -/
def ddgContainerRe : RE :=
  reSeqs [.lit "<div class=\"serp__results\">".toList,
          .grp 1 (.star true (.dot true)),
          .lit "<div class=\"".toList,
          .grp 2 (.alt (.lit "nav-link".toList) (.lit "feedback-btn".toList)),
          .lit "\"".toList]

/-- Regex `/<div class="result results_links results_links_deep web-result[^>]*>(.*?)<div class="clear"><\/div>/gs`. -/
def ddgBlockRe : RE :=
  reSeqs [.lit "<div class=\"result results_links results_links_deep web-result".toList,
          .star false (.cls true [(62, 62)]), .lit ">".toList,
          .grp 1 (.star true (.dot true)),
          .lit "<div class=\"clear\"></div>".toList]

/-- Regex `/<a rel="nofollow" class="result__a"[^>]*>(.*?)<\/a>/s`. -/
def ddgTitleRe : RE :=
  reSeqs [.lit "<a rel=\"nofollow\" class=\"result__a\"".toList,
          .star false (.cls true [(62, 62)]), .lit ">".toList,
          .grp 1 (.star true (.dot true)), .lit "</a>".toList]

/-- Regex `/href="\/\/duckduckgo\.com\/l\/\?uddg=(.*?)(?:&|")/` (no flags:
the lazy dot does not cross line terminators). -/
def ddgUrlRe : RE :=
  reSeqs [.lit "href=\"//duckduckgo.com/l/?uddg=".toList,
          .grp 1 (.star true (.dot false)),
          .alt (.lit "&".toList) (.lit "\"".toList)]

/-- Regex `/<a class="result__url"[^>]*>(.*?)<\/a>/s`. -/
def ddgDisplayUrlRe : RE :=
  reSeqs [.lit "<a class=\"result__url\"".toList,
          .star false (.cls true [(62, 62)]), .lit ">".toList,
          .grp 1 (.star true (.dot true)), .lit "</a>".toList]

/-- Regex `/<a class="result__snippet"[^>]*>(.*?)<\/a>/s`. -/
def ddgSnippetRe : RE :=
  reSeqs [.lit "<a class=\"result__snippet\"".toList,
          .star false (.cls true [(62, 62)]), .lit ">".toList,
          .grp 1 (.star true (.dot true)), .lit "</a>".toList]

/-- The result blocks of a DuckDuckGo page: the container match's group 1,
then all block matches (full match text, like `String.match` with `g`). -/
def ddgBlocks (html : List Char) : List (List Char) :=
  match reSearch false ddgContainerRe html with
  | none => []
  | some (_, _, cp) =>
    let resultsHtml := (capGet cp 1).getD []
    (reGlobal false ddgBlockRe resultsHtml).map
      (fun m => matchSlice resultsHtml m.1 m.2.1)

/-- One iteration of the block loop (webSearch.ts lines 127–145): the
`try`-block body; `none` both when title or URL fail to match and when
`decodeURIComponent` or `new URL` throws (the `catch` skips the block). -/
def ddgProcessBlock (block : List Char) : Option SearchResult :=
  match matchGroup1 false ddgTitleRe block, matchGroup1 false ddgUrlRe block with
  | some titleCap, some urlCap =>
    match jsDecodeURIComponent urlCap with
    | none => none
    | some decoded =>
      let snippet :=
        match matchGroup1 false ddgSnippetRe block with
        | some s => String.mk (cleanHTML s)
        | none => ""
      match matchGroup1 false ddgDisplayUrlRe block with
      | some d =>
        some { title := String.mk (cleanHTML titleCap), url := String.mk decoded,
               displayUrl := String.mk (cleanHTML d), snippet := snippet }
      | none =>
        match urlHostname decoded with
        | none => none
        | some host =>
          some { title := String.mk (cleanHTML titleCap), url := String.mk decoded,
                 displayUrl := String.mk host, snippet := snippet }
  | _, _ => none

/-- `extractDDGResults(html)`: container → blocks → first
`Math.min(10, …)` blocks, each contributing at most one result. -/
def extractDDGResults (html : List Char) : List SearchResult :=
  ((ddgBlocks html).take 10).filterMap ddgProcessBlock

/-! ## `extractDDGResultsAlternative` (webSearch.ts lines 200–228) -/

/-- The big block regex of the alternative extractor (line 205, `/gs`). -/
def ddgAltLinksRe : RE :=
  reSeqs [.lit "<h2 class=\"result__title\">".toList,
          .star true (.dot true),
          .lit "<a rel=\"nofollow\" class=\"result__a\"".toList,
          .star true (.dot true),
          .lit "href=\"".toList, .star true (.dot true), .lit "uddg=".toList,
          .grp 1 (.star true (.dot true)),
          .alt (.lit "&".toList) (.lit "\"".toList),
          .star true (.dot true), .lit ">".toList,
          .grp 2 (.star true (.dot true)), .lit "</a>".toList,
          .star true (.dot true),
          .lit "<a class=\"result__snippet\"".toList,
          .star true (.dot true), .lit ">".toList,
          .grp 3 (.star true (.dot true)), .lit "</a>".toList]

/-- Inner regex `/<a rel="nofollow" class="result__a".*?>(.*?)<\/a>/s` of the
alternative extractor. -/
def ddgAltTitleRe : RE :=
  reSeqs [.lit "<a rel=\"nofollow\" class=\"result__a\"".toList,
          .star true (.dot true), .lit ">".toList,
          .grp 1 (.star true (.dot true)), .lit "</a>".toList]

/-- Inner regex `/href=".*?uddg=(.*?)(?:&|")/` (no flags). -/
def ddgAltUrlRe : RE :=
  reSeqs [.lit "href=\"".toList, .star true (.dot false), .lit "uddg=".toList,
          .grp 1 (.star true (.dot false)),
          .alt (.lit "&".toList) (.lit "\"".toList)]

/-- Inner regex `/<a class="result__snippet".*?>(.*?)<\/a>/s`. -/
def ddgAltSnippetRe : RE :=
  reSeqs [.lit "<a class=\"result__snippet\"".toList,
          .star true (.dot true), .lit ">".toList,
          .grp 1 (.star true (.dot true)), .lit "</a>".toList]

/-- Loop body of the alternative extractor; `none` when title or URL fail to
match, `Except.error` when `decodeURIComponent` or `new URL` throws (which
aborts the whole loop, keeping results accumulated so far). -/
def ddgAltProcessLink (link : List Char) : Except Unit (Option SearchResult) :=
  match matchGroup1 false ddgAltTitleRe link, matchGroup1 false ddgAltUrlRe link with
  | some titleCap, some urlCap =>
    match jsDecodeURIComponent urlCap with
    | none => .error ()
    | some decoded =>
      match urlHostname decoded with
      | none => .error ()
      | some host =>
        let snippet :=
          match matchGroup1 false ddgAltSnippetRe link with
          | some s => String.mk (cleanHTML s)
          | none => ""
        .ok (some { title := String.mk (cleanHTML titleCap), url := String.mk decoded,
                    displayUrl := String.mk host, snippet := snippet })
  | _, _ => .ok none

/-- The `for … of links` loop with the surrounding `try`/`catch`: an
exception keeps the results pushed so far. -/
def ddgAltLoop : List (List Char) → List SearchResult
  | [] => []
  | link :: rest =>
    match ddgAltProcessLink link with
    | .error () => []
    | .ok none => ddgAltLoop rest
    | .ok (some r) => r :: ddgAltLoop rest

/-- `extractDDGResultsAlternative(html)`. -/
def extractDDGResultsAlternative (html : List Char) : List SearchResult :=
  ddgAltLoop ((reGlobal false ddgAltLinksRe html).map
    (fun m => matchSlice html m.1 m.2.1))

/-! ## `makeRequest` (webSearch.ts lines 35–79)

The network is a transport: for every attempt number, either a response
(status and body text) or a rejection of the `fetch` promise carrying a
JavaScript error value.  `AbortSignal.timeout` firing rejects the fetch with
a `DOMException` named `TimeoutError` (WHATWG `AbortSignal.timeout` /
`fetch`); an explicit `AbortController.abort()` rejects with a `DOMException`
named `AbortError`. -/

/-- A JavaScript error value as far as `makeRequest` inspects it. -/
structure JsError where
  isDOMException : Bool
  name : String
  message : String
deriving DecidableEq, Repr

/-- The `DOMException` produced when `AbortSignal.timeout(ms)` fires. -/
def timeoutDOMException : JsError :=
  { isDOMException := true, name := "TimeoutError",
    message := "The operation was aborted due to timeout" }

/-- The `DOMException` produced by an explicit `AbortController.abort()`. -/
def abortDOMException : JsError :=
  { isDOMException := true, name := "AbortError",
    message := "This operation was aborted" }

/-- Outcome of one `fetch` attempt. -/
inductive Attempt where
  | resp : Nat → String → Attempt   -- resolved: status code and body text
  | reject : JsError → Attempt      -- rejected (network error, abort, timeout)
deriving DecidableEq, Repr

/-- `response.ok`: status in the range 200–299. -/
def respOk (status : Nat) : Bool := decide (200 ≤ status) && decide (status < 300)

/-- The error thrown for a non-ok response (line 56). -/
def statusError (status : Nat) : JsError :=
  { isDOMException := false, name := "Error",
    message := "Request failed with status code " ++ toString status }

/-- The error a failing attempt contributes as `lastError` (line 61;
transport rejections are `Error` instances here). -/
def attemptError : Attempt → JsError
  | .resp st _ => statusError st
  | .reject e => e

deriving instance DecidableEq for Except

/-- Result of `makeRequest`: the value or thrown error, the number of
attempts actually made, and the list of backoff delays (ms) slept before
retries. -/
structure ReqOutcome where
  result : Except JsError String
  attempts : Nat
  delays : List Nat
deriving DecidableEq, Repr

/-- `options.retries || 2`: `undefined` and `0` are falsy. -/
def jsRetries : Option Nat → Nat
  | none => 2
  | some 0 => 2
  | some (n + 1) => n + 1

/-- The `for (let attempt = 0; attempt <= retries; attempt++)` loop.  `fuel`
starts at `retries + 1` and is never exhausted on the reachable range; the
fuel-0 default mirrors the dead `lastError || new Error('Request failed')`. -/
def makeRequestLoop (transport : Nat → Attempt) (retries : Nat) :
    Nat → Nat → ReqOutcome
  | _, 0 =>
    { result := .error { isDOMException := false, name := "Error",
                         message := "Request failed" },
      attempts := 0, delays := [] }
  | attempt, fuel + 1 =>
    -- `step` is the shared `catch` block (lines 60–75): break on
    -- `AbortError` `DOMException`s, break after the last attempt, otherwise
    -- sleep `1000 * 2 ** attempt` and continue with the next attempt
    let step : JsError → ReqOutcome := fun e =>
      if e.isDOMException ∧ e.name = "AbortError" then
        { result := .error e, attempts := 1, delays := [] }
      else if attempt = retries then
        { result := .error e, attempts := 1, delays := [] }
      else
        let rest := makeRequestLoop transport retries (attempt + 1) fuel
        { result := rest.result, attempts := rest.attempts + 1,
          delays := 1000 * 2 ^ attempt :: rest.delays }
    match transport attempt with
    | .resp st body =>
      if respOk st then { result := .ok body, attempts := 1, delays := [] }
      else step (statusError st)
    | .reject e => step e

/-- `makeRequest(url, options)` against a given transport. -/
def makeRequest (transport : Nat → Attempt) (optRetries : Option Nat) : ReqOutcome :=
  let retries := jsRetries optRetries
  makeRequestLoop transport retries 0 (retries + 1)

/-! ## `extractMainContent` (webSearch.ts lines 233–288) -/

/-- A paired-tag regex `/<TAG\b[^<]*(?:(?!<\/TAG>)<[^<]*)*<\/TAG>/gi`
(used for script, style, header, footer, nav, aside, form, main, article,
body). -/
def pairedTagRe (tag : String) : RE :=
  reSeqs [.lit ("<" ++ tag).toList, .wb,
          .star false (.cls true [(60, 60)]),
          .star false (reSeqs [.nla (.lit ("</" ++ tag ++ ">").toList),
                               .lit "<".toList, .star false (.cls true [(60, 60)])]),
          .lit ("</" ++ tag ++ ">").toList]

/-- Regex `/<!--.*?-->/gs`. -/
def htmlCommentRe : RE :=
  reSeqs [.lit "<!--".toList, .star true (.dot true), .lit "-->".toList]

/-- The content-class / content-id name alternation, in source order. -/
def contentNamesRe : RE :=
  reAlts [.lit "content".toList, .lit "post-content".toList,
          .lit "entry-content".toList, .lit "article-content".toList,
          .lit "page-content".toList, .lit "main-content".toList]

/-- Regex `/<div\s+(?:[^>]*\s+)?class\s*=\s*["'](?:[^"']*\s+)?(?:content|post-content|entry-content|article-content|page-content|main-content)[^"']*["'][^>]*>.*?<\/div>/gi`
(no `s` flag: the lazy dot does not cross line terminators). -/
def divClassRe : RE :=
  reSeqs [.lit "<div".toList, RE.plus false (.cls false jsWsRanges),
          .opt false (reSeqs [.star false (.cls true [(62, 62)]),
                              RE.plus false (.cls false jsWsRanges)]),
          .lit "class".toList,
          .star false (.cls false jsWsRanges), .lit "=".toList,
          .star false (.cls false jsWsRanges),
          .cls false [(34, 34), (39, 39)],
          .opt false (reSeqs [.star false (.cls true [(34, 34), (39, 39)]),
                              RE.plus false (.cls false jsWsRanges)]),
          contentNamesRe,
          .star false (.cls true [(34, 34), (39, 39)]),
          .cls false [(34, 34), (39, 39)],
          .star false (.cls true [(62, 62)]), .lit ">".toList,
          .star true (.dot false), .lit "</div>".toList]

/-- Regex `/<div\s+(?:[^>]*\s+)?id\s*=\s*["'](?:content|post-content|entry-content|article-content|page-content|main-content)["'][^>]*>.*?<\/div>/gi`. -/
def divIdRe : RE :=
  reSeqs [.lit "<div".toList, RE.plus false (.cls false jsWsRanges),
          .opt false (reSeqs [.star false (.cls true [(62, 62)]),
                              RE.plus false (.cls false jsWsRanges)]),
          .lit "id".toList,
          .star false (.cls false jsWsRanges), .lit "=".toList,
          .star false (.cls false jsWsRanges),
          .cls false [(34, 34), (39, 39)],
          contentNamesRe,
          .cls false [(34, 34), (39, 39)],
          .star false (.cls true [(62, 62)]), .lit ">".toList,
          .star true (.dot false), .lit "</div>".toList]

/-- The prioritized `contentSelectors` array (lines 249–255), in order. -/
def contentSelectors : List RE :=
  [pairedTagRe "main", pairedTagRe "article", divClassRe, divIdRe, pairedTagRe "body"]

/-- Join a list of matches with single spaces (`matches.join(" ")`). -/
def joinSpaces : List (List Char) → List Char
  | [] => []
  | [m] => m
  | m :: rest => m ++ " ".toList ++ joinSpaces rest

/-- The selector loop (lines 260–267): full matches of the first selector
with at least one match, joined by spaces; `[]` if none matched. -/
def firstSelectorMatch (cleaned : List Char) : List RE → List Char
  | [] => []
  | sel :: rest =>
    let ms := (reGlobal true sel cleaned).map (fun m => matchSlice cleaned m.1 m.2.1)
    if ms ≠ [] then joinSpaces ms else firstSelectorMatch cleaned rest

/-- `extractMainContent(content)`.  Nothing in the body can throw, so the
`catch` branch returning "Failed to extract content" is unreachable and the
model is total. -/
def extractMainContent (content : List Char) : List Char :=
  if content = [] then []
  else
    let cleaned := content
    let cleaned := reReplaceAll true (pairedTagRe "script") " ".toList cleaned
    let cleaned := reReplaceAll true (pairedTagRe "style") " ".toList cleaned
    let cleaned := reReplaceAll true (pairedTagRe "header") " ".toList cleaned
    let cleaned := reReplaceAll true (pairedTagRe "footer") " ".toList cleaned
    let cleaned := reReplaceAll true (pairedTagRe "nav") " ".toList cleaned
    let cleaned := reReplaceAll true (pairedTagRe "aside") " ".toList cleaned
    let cleaned := reReplaceAll true (pairedTagRe "form") " ".toList cleaned
    let cleaned := reReplaceAll false htmlCommentRe " ".toList cleaned
    let mainContent := firstSelectorMatch cleaned contentSelectors
    let mainContent := if mainContent = [] then cleaned else mainContent
    let text := reReplaceAll false tagRe " ".toList mainContent
    let text := jsTrim (reReplaceAll false wsPlusRe " ".toList text)
    cleanHTML text

/-! ## `fetchPageContent` (webSearch.ts lines 293–334) and
`searchDuckDuckGo` (lines 154–195) -/

/-- Regex `/<title[^>]*>(.*?)<\/title>/i` (no `s`: the lazy dot does not
cross line terminators). -/
def titleTagRe : RE :=
  reSeqs [.lit "<title".toList, .star false (.cls true [(62, 62)]), .lit ">".toList,
          .grp 1 (.star true (.dot false)), .lit "</title>".toList]

/-- What one `fetchPageContent(url)` call returns, given the outcome of its
`makeRequest` (the fetch of that url).  `extractMainContent` is total, so
the inner `catch` (lines 309–315) is unreachable; on fetch failure the outer
`catch` yields `content: null` with the error's message. -/
structure PageContent where
  url : String
  content : Option String
  error : Option String
deriving DecidableEq, Repr

/-- `fetchPageContent`, with the network abstracted as the `Except` outcome
of `makeRequest(url, {timeout: 15000, retries: 1, …})`. -/
def fetchPageContent (url : String) (fetched : Except JsError String) : PageContent :=
  match fetched with
  | .error e => { url := url, content := none, error := some e.message }
  | .ok html =>
    let content := extractMainContent html.toList
    let title :=
      match matchGroup1 true titleTagRe html.toList with
      | some t => cleanHTML t
      | none => []
    { url := url,
      content := some (String.mk (if content = [] then
          "[No content extracted. Page title: ".toList ++ title ++ "]".toList
        else content)),
      error := none }

/-- JavaScript truthiness of the optional `error` string field. -/
def errTruthy : Option String → Bool
  | none => false
  | some s => s ≠ ""

/-- `searchDuckDuckGo(query)`, with the network abstracted as the `Except`
outcome of `makeRequest(searchUrl, {timeout: 10000, retries: 2})`. -/
def searchDuckDuckGo (query : String) (searchFetch : Except JsError String) :
    SearchResponse :=
  match searchFetch with
  | .error e => { query := query, results := [], error := some e.message }
  | .ok html =>
    let results := extractDDGResults html.toList
    if results = [] then
      let alternativeResults := extractDDGResultsAlternative html.toList
      if alternativeResults ≠ [] then
        { query := query, results := alternativeResults, error := none }
      else
        { query := query, results := [],
          error := some "No results found or couldn't parse results" }
    else
      { query := query, results := results, error := none }

/-! ## `webSearch` (webSearch.ts lines 340–394) -/

/-- `resultsToProcess.map((result, index) => …)`. -/
def jsMapIdx (f : Nat → α → β) : List α → List β :=
  go 0
where
  go (i : Nat) : List α → List β
    | [] => []
    | a :: rest => f i a :: go (i + 1) rest

/-- `webSearch(query)`.  The network is abstracted by the search fetch
outcome and, per index `i` into the processed result list, the outcome of
the content fetch dispatched for that result.  `fetchPageContent` never
rejects (it catches internally), so every promise in `Promise.allSettled` is
fulfilled and the `rejected` branch (lines 371–378) is unreachable;
`Promise.allSettled` pairs outcome `i` with input `i` regardless of
completion order. -/
def webSearch (query : String) (searchFetch : Except JsError String)
    (pageFetch : Nat → Except JsError String) : ContentResponse :=
  let searchResults := searchDuckDuckGo query searchFetch
  if errTruthy searchResults.error ∨ searchResults.results = [] then
    { query := query,
      error := some (if errTruthy searchResults.error then
          searchResults.error.getD "" else "No search results found"),
      results := [] }
  else
    let resultsToProcess := searchResults.results.take 5
    let fullResults := jsMapIdx (fun i r =>
      let settled := fetchPageContent r.url (pageFetch i)
      { title := r.title, url := r.url, displayUrl := r.displayUrl,
        snippet := r.snippet, content := settled.content,
        error := settled.error : ContentResult }) resultsToProcess
    { query := query, results := fullResults, error := none }

/-! ## `normalizePhoneNumber` (message.ts lines 29–60) -/

/-- `phone.replace(/[^0-9+]/g, '')`: keep digits and every `+`. -/
def cleanPhone (l : List Char) : List Char :=
  l.filter (fun c => (decide ('0' ≤ c) && decide (c ≤ '9')) || c == '+')

/-- Test `/^\+1\d{10}$/`. -/
def isPlus1Ten : List Char → Bool
  | '+' :: '1' :: rest => decide (rest.length = 10) && rest.all Char.isDigit
  | _ => false

/-- Test `/^1\d{10}$/`. -/
def isOneElevenDigits : List Char → Bool
  | '1' :: rest => decide (rest.length = 10) && rest.all Char.isDigit
  | _ => false

/-- Test `/^\d{10}$/`. -/
def isTenDigits (l : List Char) : Bool :=
  decide (l.length = 10) && l.all Char.isDigit

/-- `normalizePhoneNumber(phone)`.  The final `Set` holds exactly one
element, so `Array.from` yields a singleton. -/
def normalizePhoneNumber (phone : String) : List String :=
  let cleaned := cleanPhone phone.toList
  if isPlus1Ten cleaned then [String.mk cleaned]
  else if isOneElevenDigits cleaned then [String.mk ('+' :: cleaned)]
  else if isTenDigits cleaned then [String.mk ('+' :: '1' :: cleaned)]
  else if litHeads false "+1".toList cleaned then [String.mk cleaned]
  else if litHeads false "1".toList cleaned then [String.mk ('+' :: cleaned)]
  else [String.mk ('+' :: '1' :: cleaned)]

/-! ## `decodeAttributedBody` (message.ts lines 108–187) -/

/-- The seven `patterns` of the text loop (lines 115–123), in order.  None
carries a flag, so lazy dots do not cross line terminators. -/
def attrTextPatterns : List RE :=
  [ -- /NSString">(.*?)</
    reSeqs [.lit "NSString\">".toList, .grp 1 (.star true (.dot false)), .lit "<".toList],
    -- /NSString">([^<]+)/
    reSeqs [.lit "NSString\">".toList, .grp 1 (RE.plus false (.cls true [(60, 60)]))],
    -- /NSNumber">\d+<.*?NSString">(.*?)</
    reSeqs [.lit "NSNumber\">".toList, RE.plus false (.cls false [(48, 57)]),
            .lit "<".toList, .star true (.dot false), .lit "NSString\">".toList,
            .grp 1 (.star true (.dot false)), .lit "<".toList],
    -- /NSArray">.*?NSString">(.*?)</
    reSeqs [.lit "NSArray\">".toList, .star true (.dot false),
            .lit "NSString\">".toList, .grp 1 (.star true (.dot false)), .lit "<".toList],
    -- /"string":\s*"([^"]+)"/
    reSeqs [.lit "\"string\":".toList, .star false (.cls false jsWsRanges),
            .lit "\"".toList, .grp 1 (RE.plus false (.cls true [(34, 34)])),
            .lit "\"".toList],
    -- /text[^>]*>(.*?)</
    reSeqs [.lit "text".toList, .star false (.cls true [(62, 62)]), .lit ">".toList,
            .grp 1 (.star true (.dot false)), .lit "<".toList],
    -- /message>(.*?)</
    reSeqs [.lit "message>".toList, .grp 1 (.star true (.dot false)), .lit "<".toList] ]

/-- `https?` scheme prefix. -/
def httpSchemeRe : RE :=
  reSeqs [.lit "http".toList, .opt false (.lit "s".toList), .lit "://".toList]

/-- Class `[^\s<"]`. -/
def urlBodyCls : RE := .cls true (jsWsRanges ++ [(60, 60), (34, 34)])

/-- The four `urlPatterns` (lines 138–143), in order. -/
def attrUrlPatterns : List RE :=
  [ -- /(https?:\/\/[^\s<"]+)/
    .grp 1 (reSeqs [httpSchemeRe, RE.plus false urlBodyCls]),
    -- /NSString">(https?:\/\/[^\s<"]+)/
    reSeqs [.lit "NSString\">".toList,
            .grp 1 (reSeqs [httpSchemeRe, RE.plus false urlBodyCls])],
    -- /"url":\s*"(https?:\/\/[^"]+)"/
    reSeqs [.lit "\"url\":".toList, .star false (.cls false jsWsRanges),
            .lit "\"".toList,
            .grp 1 (reSeqs [httpSchemeRe, RE.plus false (.cls true [(34, 34)])]),
            .lit "\"".toList],
    -- /link[^>]*>(https?:\/\/[^<]+)/
    reSeqs [.lit "link".toList, .star false (.cls true [(62, 62)]), .lit ">".toList,
            .grp 1 (reSeqs [httpSchemeRe, RE.plus false (.cls true [(60, 60)])])] ]

/-- The text-pattern loop (lines 126–135): `text` keeps its previous value
when a pattern does not match or its capture is falsy; a truthy capture is
taken, and the loop breaks only when its length exceeds 5. -/
def pickText (content : List Char) : List RE → List Char → List Char
  | [], acc => acc
  | p :: ps, acc =>
    match matchGroup1 false p content with
    | some t =>
      if t ≠ [] then (if t.length > 5 then t else pickText content ps t)
      else pickText content ps acc
    | none => pickText content ps acc

/-- The URL loop (lines 145–152): first truthy capture wins. -/
def pickUrl (content : List Char) : List RE → Option (List Char)
  | [] => none
  | p :: ps =>
    match matchGroup1 false p content with
    | some u => if u ≠ [] then some u else pickUrl content ps
    | none => pickUrl content ps

/-- Cleanup regexes of the readable-text fallback (lines 156–164), in
order.  All are `/g`, flagless otherwise. -/
def attrCleanupStreamRe : RE :=
  reSeqs [.lit "streamtyped".toList, .star true (.dot false), .lit "NSString".toList]

def attrCleanupAttribRe : RE :=
  reSeqs [.lit "NSAttributedString".toList, .star true (.dot false), .lit "NSString".toList]

def attrCleanupDictRe : RE :=
  reSeqs [.lit "NSDictionary".toList, .star true (.dot false), .eos]

def attrCleanupPlusRe : RE :=
  reSeqs [.lit "+".toList, RE.plus false (.cls false [(65, 90), (97, 122)]),
          .cls false jsWsRanges]

def attrCleanupNumValRe : RE :=
  reSeqs [.lit "NSNumber".toList, .star true (.dot false), .lit "NSValue".toList,
          .star true (.dot false), .lit "*".toList]

/-- Class `[^\x20-\x7E]` (non-printable-ASCII). -/
def nonPrintableRe : RE := .cls true [(0x20, 0x7e)]

/-- The readable-text fallback (lines 156–164). -/
def attrReadableText (content : List Char) : List Char :=
  let r := reReplaceAll false attrCleanupStreamRe [] content
  let r := reReplaceAll false attrCleanupAttribRe [] r
  let r := reReplaceAll false attrCleanupDictRe [] r
  let r := reReplaceAll false attrCleanupPlusRe [] r
  let r := reReplaceAll false attrCleanupNumValRe [] r
  let r := reReplaceAll false nonPrintableRe " ".toList r
  let r := reReplaceAll false wsPlusRe " ".toList r
  jsTrim r

/-- Regex `/^[+\s]+/`: a leading run of `+` and whitespace (the `^` anchor
restricts the replace to position 0). -/
def stripLeadingPlusWs (l : List Char) : List Char :=
  l.dropWhile (fun c => c == '+' || isJsWs c)

/-- Regex `/\s*iI\s*[A-Z]\s*$/`. -/
def attrTrailingNoiseRe : RE :=
  reSeqs [.star false (.cls false jsWsRanges), .lit "iI".toList,
          .star false (.cls false jsWsRanges), .cls false [(65, 90)],
          .star false (.cls false jsWsRanges), .eos]

/-- The text post-processing (lines 174–180), applied when `text` is
truthy. -/
def attrPostClean (text : List Char) : List Char :=
  let t := stripLeadingPlusWs text
  let t := reReplaceFirst false attrTrailingNoiseRe [] t
  let t := reReplaceAll false wsPlusRe " ".toList t
  jsTrim t

/-- What `decodeAttributedBody` returns. -/
structure DecodedBody where
  text : String
  url : Option String
deriving DecidableEq, Repr

/-- The fixed placeholder. -/
def notReadable : String := "[Message content not readable]"

/-- `decodeAttributedBody(hexString)`.  `Buffer.from(hex)` and
`buffer.toString()` never throw and nothing else in the body can, so the
model is total and the `catch` (lines 183–186) is unreachable. -/
def decodeAttributedBody (hexString : String) : DecodedBody :=
  let content := utf8Lossy (hexDecodeLossy hexString.toList)
  let text := pickText content attrTextPatterns []
  let url := pickUrl content attrUrlPatterns
  if text = [] ∧ url = none then
    let readableText := attrReadableText content
    if readableText.length > 5 then
      -- text := readableText, then the shared tail (post-clean and return)
      let t := attrPostClean readableText
      { text := String.mk t, url := none }
    else
      { text := notReadable, url := none }
  else
    let t := if text ≠ [] then attrPostClean text else text
    { text := String.mk (if t ≠ [] then t else (url.getD [])),
      url := url.map String.mk }

/-! ## The row-to-message mapping of `readMessages` (message.ts lines
277–330) and `getUnreadMessages` (lines 400–453) -/

/-- A parsed row of the SQL query (`sqlite3 -json` output): `content` is the
`CASE` expression (plain text, hex-encoded attributed body, or NULL) and
`content_type` its discriminator (0 text, 1 attributedBody, 2 neither). -/
structure MessageRow where
  message_id : Nat
  content : Option String
  date : String
  sender : String
  is_from_me : Nat
  cache_has_attachments : Nat
  subject : Option String
  content_type : Nat
deriving DecidableEq, Repr

/-- The `Message` objects the two functions return. -/
structure Message where
  content : String
  date : String
  sender : String
  is_from_me : Bool
  attachments : Option (List String)
  url : Option String
deriving DecidableEq, Repr

/-- Regex `/(https?:\/\/[^\s]+)/` used on plain-text rows (line 291). -/
def plainTextUrlRe : RE :=
  .grp 1 (reSeqs [httpSchemeRe, RE.plus false (.cls true jsWsRanges)])

/-- JavaScript truthiness of the nullable `subject` column. -/
def subjTruthy : Option String → Bool
  | none => false
  | some s => s ≠ ""

/-- The row filter (lines 279 / 402):
`msg.content !== null || msg.cache_has_attachments === 1`. -/
def keepRow (r : MessageRow) : Bool :=
  r.content ≠ none || decide (r.cache_has_attachments = 1)

/-- The per-row mapping (lines 280–328 / 403–451).  `resolve` abstracts
`getAttachmentPaths(msg.message_id)` (an I/O lookup that returns `[]` on any
failure); `dateConv` abstracts `new Date(row.date).toISOString()`. -/
def processMessageRow (resolve : Nat → List String) (dateConv : String → String)
    (msg : MessageRow) : Message :=
  let content := (msg.content.getD "").toList
  let (content, url) :=
    if msg.content_type = 1 then
      let decoded := decodeAttributedBody (String.mk content)
      (decoded.text.toList, decoded.url.map String.toList)
    else
      (content, matchGroup1 false plainTextUrlRe content)
  let attachments :=
    if msg.cache_has_attachments ≠ 0 then resolve msg.message_id else []
  let content :=
    if subjTruthy msg.subject then
      "Subject: ".toList ++ (msg.subject.getD "").toList ++ "\n".toList ++ content
    else content
  let formatted : Message :=
    { content := String.mk (if content = [] then "[No text content]".toList else content),
      date := dateConv msg.date,
      sender := msg.sender,
      is_from_me := msg.is_from_me ≠ 0,
      attachments := none, url := none }
  let formatted :=
    if attachments.length > 0 then
      { formatted with
        attachments := some attachments
        content := formatted.content ++ "\n[Attachments: " ++
          toString attachments.length ++ "]" }
    else formatted
  match url with
  | some u =>
    if u ≠ [] then
      { formatted with
        url := some (String.mk u)
        content := formatted.content ++ "\n[URL: " ++ String.mk u ++ "]" }
    else formatted
  | none => formatted

/-- The row pipeline shared verbatim by `readMessages` (lines 277–330): the
filter, then the mapping. -/
def readMessagesRows (resolve : Nat → List String) (dateConv : String → String)
    (rows : List MessageRow) : List Message :=
  (rows.filter keepRow).map (processMessageRow resolve dateConv)

/-- The identical row pipeline of `getUnreadMessages` (lines 400–453). -/
def getUnreadMessagesRows (resolve : Nat → List String) (dateConv : String → String)
    (rows : List MessageRow) : List Message :=
  (rows.filter keepRow).map (processMessageRow resolve dateConv)

/-! ## Concrete fixtures used by witnesses and counterexamples -/

/-- A page on which the primary block pattern finds nothing (no
`serp__results` container) but the alternative pattern matches once. -/
def altOnlyHtml : String :=
  "<h2 class=\"result__title\"><a rel=\"nofollow\" class=\"result__a\" href=\"x?uddg=https%3A%2F%2Fe.co&\">T</a><a class=\"result__snippet\">S</a>"

/-- A primary-format block missing only the display URL and snippet, with a
well-formed destination URL. -/
def goodBlockHtml : String :=
  "<div class=\"serp__results\"><div class=\"result results_links results_links_deep web-result\"><a rel=\"nofollow\" class=\"result__a\" href=\"//duckduckgo.com/l/?uddg=https%3A%2F%2Fe.co&x\">T</a><div class=\"clear\"></div><div class=\"nav-link\">"

/-- The single block `ddgBlocks` finds in `goodBlockHtml`. -/
def goodBlock : String :=
  "<div class=\"result results_links results_links_deep web-result\"><a rel=\"nofollow\" class=\"result__a\" href=\"//duckduckgo.com/l/?uddg=https%3A%2F%2Fe.co&x\">T</a><div class=\"clear\"></div>"

/-- The same block with destination URL `notaurl`: `new URL("notaurl")`
throws, so the block is skipped. -/
def badBlockHtml : String :=
  "<div class=\"serp__results\"><div class=\"result results_links results_links_deep web-result\"><a rel=\"nofollow\" class=\"result__a\" href=\"//duckduckgo.com/l/?uddg=notaurl&x\">T</a><div class=\"clear\"></div><div class=\"nav-link\">"

def badBlock : String :=
  "<div class=\"result results_links results_links_deep web-result\"><a rel=\"nofollow\" class=\"result__a\" href=\"//duckduckgo.com/l/?uddg=notaurl&x\">T</a><div class=\"clear\"></div>"

/-- The transport used by the pipeline witnesses: index-0 content fetch
fails with a network `TypeError`. -/
def c1PageFetch : Nat → Except JsError String := fun _ =>
  .error { isDOMException := false, name := "TypeError", message := "fetch failed" }

/-- An attempt that fails with a non-timeout, non-abort error: a non-2xx
response, or a rejection that is not a `DOMException` (network errors are
`TypeError`s). -/
def nonTimeoutFailure : Attempt → Bool
  | .resp st _ => !respOk st
  | .reject e => !e.isDOMException

/-- The cleaning step as the claim words it ("removing all characters except
digits and a leading `+`"): a `+` survives only in leading position.  The
source instead keeps every `+` (`/[^0-9+]/g`). -/
def claimClean (l : List Char) : List Char :=
  match l with
  | '+' :: rest => '+' :: rest.filter Char.isDigit
  | _ => l.filter Char.isDigit

/-- The claim's characterization of the text-pattern loop: the first truthy
capture longer than 5 characters, in pattern order. -/
def firstLongCapture (content : List Char) : List RE → Option (List Char)
  | [] => none
  | p :: ps =>
    match matchGroup1 false p content with
    | some t => if t ≠ [] ∧ t.length > 5 then some t else firstLongCapture content ps
    | none => firstLongCapture content ps

/-- The last truthy capture over the pattern list (what `text` holds when no
capture exceeded 5 characters). -/
def lastTruthyCapture (content : List Char) : List RE → Option (List Char)
  | [] => none
  | p :: ps =>
    match lastTruthyCapture content ps with
    | some t => some t
    | none =>
      match matchGroup1 false p content with
      | some t => if t ≠ [] then some t else none
      | none => none

/-- A store row with NULL text body and the attachment flag set (the SQL
`CASE` yields `content NULL`, `content_type 2` for such rows). -/
def c8RowAttach : MessageRow :=
  { message_id := 7, content := none, date := "2024-01-01 10:00:00",
    sender := "+15551234567", is_from_me := 0, cache_has_attachments := 1,
    subject := none, content_type := 2 }

/-- The same row with a subject. -/
def c8RowSubject : MessageRow :=
  { c8RowAttach with subject := some "Hi" }

/-! # Theorems -/

/-! ## `makeRequest` retry behaviour (C2, C3, C10) -/

theorem makeRequestLoop_step (t : Nat → Attempt) (retries attempt fuel : Nat)
    (hfail : nonTimeoutFailure (t attempt) = true) (hlt : attempt ≠ retries) :
    makeRequestLoop t retries attempt (fuel + 1) =
      { result := (makeRequestLoop t retries (attempt + 1) fuel).result
        attempts := (makeRequestLoop t retries (attempt + 1) fuel).attempts + 1
        delays := 1000 * 2 ^ attempt ::
          (makeRequestLoop t retries (attempt + 1) fuel).delays } := by
  cases ht : t attempt with
  | resp st body =>
    have hok : respOk st = false := by
      simpa [nonTimeoutFailure, ht] using hfail
    simp [makeRequestLoop, ht, hok, statusError, hlt]
  | reject e =>
    have hd : e.isDOMException = false := by
      simpa [nonTimeoutFailure, ht] using hfail
    simp [makeRequestLoop, ht, hd, hlt]

theorem makeRequestLoop_last (t : Nat → Attempt) (retries fuel : Nat)
    (hfail : nonTimeoutFailure (t retries) = true) :
    makeRequestLoop t retries retries (fuel + 1) =
      { result := .error (attemptError (t retries)), attempts := 1, delays := [] } := by
  cases ht : t retries with
  | resp st body =>
    have hok : respOk st = false := by
      simpa [nonTimeoutFailure, ht] using hfail
    simp [makeRequestLoop, ht, hok, statusError, attemptError]
  | reject e =>
    have hd : e.isDOMException = false := by
      simpa [nonTimeoutFailure, ht] using hfail
    simp [makeRequestLoop, ht, hd, attemptError]

theorem makeRequestLoop_fail3 (t : Nat → Attempt)
    (h : ∀ i, nonTimeoutFailure (t i) = true) :
    makeRequestLoop t 2 0 3 =
      { result := .error (attemptError (t 2)), attempts := 3,
        delays := [1000, 2000] } := by
  rw [show (3 : Nat) = 2 + 1 from rfl, makeRequestLoop_step t 2 0 2 (h 0) (by decide),
      show (2 : Nat) = 1 + 1 from rfl, makeRequestLoop_step t 2 1 1 (h 1) (by decide),
      show (1 : Nat) = 0 + 1 from rfl, makeRequestLoop_last t 2 0 (h 2)]
  norm_num

/-- C3: with `retries = 2` against a transport whose every attempt fails
with a non-timeout error (network error or non-2xx status), `makeRequest`
makes exactly 3 attempts, sleeps 1s then 2s before the retries, and finally
throws the last error encountered; if the last attempt was a non-2xx
response with status `st`, that error's message is
`"Request failed with status code " ++ toString st`. -/
theorem makeRequest_retry_exhaustion (t : Nat → Attempt)
    (h : ∀ i, nonTimeoutFailure (t i) = true) :
    (makeRequest t (some 2)).attempts = 3 ∧
    (makeRequest t (some 2)).delays = [1000, 2000] ∧
    (makeRequest t (some 2)).result = .error (attemptError (t 2)) ∧
    ∀ st body, t 2 = .resp st body →
      (attemptError (t 2)).message = "Request failed with status code " ++ toString st := by
  have hl := makeRequestLoop_fail3 t h
  refine ⟨?_, ?_, ?_, ?_⟩
  · simp [makeRequest, jsRetries, hl]
  · simp [makeRequest, jsRetries, hl]
  · simp [makeRequest, jsRetries, hl]
  · intro st body ht
    simp [attemptError, ht, statusError]

theorem makeRequest_retry_exhaustion_witness :
    (makeRequest (fun _ => .resp 500 "") (some 2)).attempts = 3 ∧
    (makeRequest (fun _ => .resp 500 "") (some 2)).delays = [1000, 2000] ∧
    (makeRequest (fun _ => .resp 500 "") (some 2)).result =
      .error (statusError 500) ∧
    (statusError 500).message = "Request failed with status code 500" := by
  obtain ⟨h1, h2, h3, h4⟩ :=
    makeRequest_retry_exhaustion (fun _ => .resp 500 "") (fun _ => rfl)
  exact ⟨h1, h2, h3, h4 500 "" rfl⟩

/-- C2 (code bug): the source's own comment (webSearch.ts line 63, "Don't
retry if it's an aborted request or timeout") and the spec say a timed-out
attempt is not retried, but the code breaks only on a `DOMException` named
`AbortError`, while `AbortSignal.timeout` firing rejects `fetch` with a
`DOMException` named `TimeoutError` (WHATWG; both Node and Bun).  So a
transport timing out on every attempt with `retries = 2` yields 3 attempts
with backoff sleeps, not the 1 attempt the claim states; an explicit
`AbortController.abort()` (name `AbortError`) is what yields 1 attempt. -/
theorem makeRequest_timeout_retried :
    (makeRequest (fun _ => .reject timeoutDOMException) (some 2)).attempts = 3 ∧
    (makeRequest (fun _ => .reject timeoutDOMException) (some 2)).delays = [1000, 2000] ∧
    (makeRequest (fun _ => .reject timeoutDOMException) (some 2)).result =
      .error timeoutDOMException ∧
    (makeRequest (fun _ => .reject abortDOMException) (some 2)).attempts = 1 := by
  refine ⟨?_, ?_, ?_, ?_⟩ <;> rfl

/-- C10: `options.retries || 2` treats `0` (and omission) as falsy, so a
caller asking for zero retries still gets the default budget of 2 extra
attempts: against an always-failing non-timeout transport, 3 attempts are
made in total. -/
theorem makeRequest_zero_retries_coerced (t : Nat → Attempt)
    (h : ∀ i, nonTimeoutFailure (t i) = true) :
    jsRetries (some 0) = 2 ∧ jsRetries none = 2 ∧
    (makeRequest t (some 0)).attempts = 3 ∧
    (makeRequest t none).attempts = 3 := by
  have hl := makeRequestLoop_fail3 t h
  exact ⟨rfl, rfl, by simp [makeRequest, jsRetries, hl], by simp [makeRequest, jsRetries, hl]⟩

theorem makeRequest_zero_retries_coerced_witness :
    jsRetries (some 0) = 2 ∧ jsRetries none = 2 ∧
    (makeRequest (fun _ => .reject
      { isDOMException := false, name := "TypeError", message := "fetch failed" })
      (some 0)).attempts = 3 ∧
    (makeRequest (fun _ => .reject
      { isDOMException := false, name := "TypeError", message := "fetch failed" })
      none).attempts = 3 :=
  makeRequest_zero_retries_coerced _ (fun _ => rfl)

/-! ## The web research pipeline (C4, C1) -/

theorem jsMapIdx_go_length (f : Nat → α → β) (l : List α) :
    ∀ i, (jsMapIdx.go f i l).length = l.length := by
  induction l with
  | nil => intro i; rfl
  | cons a rest ih => intro i; simp [jsMapIdx.go, ih]

theorem jsMapIdx_length (f : Nat → α → β) (l : List α) :
    (jsMapIdx f l).length = l.length :=
  jsMapIdx_go_length f l 0

theorem jsMapIdx_go_getElem? (f : Nat → α → β) (l : List α) :
    ∀ i j, (jsMapIdx.go f i l)[j]? = (l[j]?).map (f (i + j)) := by
  induction l with
  | nil => intro i j; simp [jsMapIdx.go]
  | cons a rest ih =>
    intro i j
    cases j with
    | zero => simp [jsMapIdx.go]
    | succ j =>
      have harith : i + 1 + j = i + (j + 1) := by omega
      simp [jsMapIdx.go, ih (i + 1) j, harith]

theorem jsMapIdx_getElem? (f : Nat → α → β) (l : List α) (j : Nat) :
    (jsMapIdx f l)[j]? = (l[j]?).map (f j) := by
  have h := jsMapIdx_go_getElem? f l 0 j
  simpa [jsMapIdx] using h

/-- `searchDuckDuckGo` sets a truthy error only alongside an empty result
list. -/
theorem searchDuckDuckGo_error_empty (q : String) (sf : Except JsError String)
    (h : errTruthy (searchDuckDuckGo q sf).error = true) :
    (searchDuckDuckGo q sf).results = [] := by
  cases sf with
  | error e => rfl
  | ok html =>
    by_cases h1 : extractDDGResults html.toList = []
    · by_cases h2 : extractDDGResultsAlternative html.toList = []
      · simp only [String.toList] at h1 h2
        simp [searchDuckDuckGo, String.toList, h1, h2]
      · exfalso
        simp only [String.toList] at h1 h2
        simp [searchDuckDuckGo, String.toList, h1, h2, errTruthy] at h
    · exfalso
      simp only [String.toList] at h1
      simp [searchDuckDuckGo, String.toList, h1, errTruthy] at h

/-- C4: the pipeline's output has length `min N 5` where `N` is the number
of SearchResults the search step yielded, and entry `i` carries the title,
url, displayUrl and snippet of SearchResult `i`.  In the embedding
`Promise.allSettled` is indexed by input position, which is exactly why the
source's output cannot depend on fetch completion order. -/
theorem webSearch_preserves_order (query : String) (sf : Except JsError String)
    (pf : Nat → Except JsError String) :
    (webSearch query sf pf).results.length =
      min (searchDuckDuckGo query sf).results.length 5 ∧
    ∀ (i : Nat) (r : ContentResult) (s : SearchResult),
      (webSearch query sf pf).results[i]? = some r →
      (searchDuckDuckGo query sf).results[i]? = some s →
      r.title = s.title ∧ r.url = s.url ∧ r.displayUrl = s.displayUrl ∧
      r.snippet = s.snippet := by
  by_cases hg : errTruthy (searchDuckDuckGo query sf).error = true ∨
      (searchDuckDuckGo query sf).results = []
  · have hres : (searchDuckDuckGo query sf).results = [] := by
      rcases hg with hg | hg
      · exact searchDuckDuckGo_error_empty query sf hg
      · exact hg
    constructor
    · rw [webSearch, if_pos hg, hres]
      rfl
    · intro i r s hr hs
      rw [webSearch, if_pos hg] at hr
      simp at hr
  · constructor
    · rw [webSearch, if_neg hg]
      simp [jsMapIdx_length, List.length_take, Nat.min_comm]
    · intro i r s hr hs
      rw [webSearch, if_neg hg] at hr
      simp only [jsMapIdx_getElem?] at hr
      rcases hmap : ((searchDuckDuckGo query sf).results.take 5)[i]? with _ | s2
      · rw [hmap] at hr; simp at hr
      · rw [hmap] at hr
        simp only [Option.map_some'] at hr
        have hi5 : i < 5 := by
          by_contra hi5
          rw [List.getElem?_take] at hmap
          simp [Nat.not_lt.mp hi5] at hmap
          omega
        rw [List.getElem?_take_of_lt hi5, hs] at hmap
        cases hmap
        cases hr.symm
        exact ⟨rfl, rfl, rfl, rfl⟩

set_option maxRecDepth 100000 in
theorem webSearch_preserves_order_witness :
    (webSearch "q" (.ok altOnlyHtml) c1PageFetch).results.length =
      min (searchDuckDuckGo "q" (.ok altOnlyHtml)).results.length 5 ∧
    ((⟨"T", "https://e.co", "e.co", "S", none, some "fetch failed"⟩ :
        ContentResult).title =
      (⟨"T", "https://e.co", "e.co", "S"⟩ : SearchResult).title) := by
  constructor
  · exact (webSearch_preserves_order "q" (.ok altOnlyHtml) c1PageFetch).1
  · have h1 : (webSearch "q" (.ok altOnlyHtml) c1PageFetch).results[0]? =
        some (⟨"T", "https://e.co", "e.co", "S", none, some "fetch failed"⟩ :
          ContentResult) := by decide
    have h2 : (searchDuckDuckGo "q" (.ok altOnlyHtml)).results[0]? =
        some (⟨"T", "https://e.co", "e.co", "S"⟩ : SearchResult) := by decide
    exact ((webSearch_preserves_order "q" (.ok altOnlyHtml) c1PageFetch).2 0
      ⟨"T", "https://e.co", "e.co", "S", none, some "fetch failed"⟩
      ⟨"T", "https://e.co", "e.co", "S"⟩ h1 h2).1

/-- C1: in every pipeline output entry, `content` is `none` exactly when
that entry's own fetch failed (`fetchPageContent` succeeds with non-null
content otherwise, since `extractMainContent` is total and an empty
extraction is replaced by a placeholder string); when `content` is `none`
the `error` field carries the failure's message, non-empty whenever the
transport's failure reasons are (as real `fetch`/status errors are); and an
entry is a function of its own index's fetch outcome only, so one failure
leaves every other entry unchanged. -/
theorem webSearch_failure_isolation (query : String) (sf : Except JsError String)
    (pf : Nat → Except JsError String)
    (hmsg : ∀ i e, pf i = Except.error e → e.message ≠ "") :
    (∀ (i : Nat) (r : ContentResult),
      (webSearch query sf pf).results[i]? = some r →
      ((r.content = none) ↔ ∃ e, pf i = Except.error e) ∧
      (r.content = none → ∃ msg, r.error = some msg ∧ msg ≠ "")) ∧
    (∀ pf2 k, (∀ i, i ≠ k → pf i = pf2 i) →
      ∀ j, j ≠ k →
        (webSearch query sf pf).results[j]? = (webSearch query sf pf2).results[j]?) := by
  constructor
  · intro i r hr
    by_cases hg : errTruthy (searchDuckDuckGo query sf).error = true ∨
        (searchDuckDuckGo query sf).results = []
    · rw [webSearch, if_pos hg] at hr
      simp at hr
    · rw [webSearch, if_neg hg] at hr
      simp only [jsMapIdx_getElem?] at hr
      rcases hmap : ((searchDuckDuckGo query sf).results.take 5)[i]? with _ | s
      · rw [hmap] at hr; simp at hr
      · rw [hmap] at hr
        simp only [Option.map_some'] at hr
        cases hr.symm
        cases hpf : pf i with
        | error e =>
          constructor
          · simp [fetchPageContent, hpf]
          · intro _
            exact ⟨e.message, by simp [fetchPageContent, hpf], hmsg i e hpf⟩
        | ok html =>
          constructor
          · simp [fetchPageContent, hpf]
          · intro hc
            exfalso
            simp [fetchPageContent, hpf] at hc
  · intro pf2 k hagree j hj
    by_cases hg : errTruthy (searchDuckDuckGo query sf).error = true ∨
        (searchDuckDuckGo query sf).results = []
    · rw [webSearch, if_pos hg, webSearch, if_pos hg]
    · rw [webSearch, if_neg hg, webSearch, if_neg hg]
      simp only [jsMapIdx_getElem?]
      rw [hagree j hj]

set_option maxRecDepth 100000 in
theorem webSearch_failure_isolation_witness :
    (webSearch "q" (.ok altOnlyHtml) c1PageFetch).results[0]? =
      some ⟨"T", "https://e.co", "e.co", "S", none, some "fetch failed"⟩ ∧
    ((⟨"T", "https://e.co", "e.co", "S", none, some "fetch failed"⟩ :
        ContentResult).content = none ↔ ∃ e, c1PageFetch 0 = Except.error e) := by
  have h1 : (webSearch "q" (.ok altOnlyHtml) c1PageFetch).results[0]? =
      some (⟨"T", "https://e.co", "e.co", "S", none, some "fetch failed"⟩ :
        ContentResult) := by decide
  constructor
  · exact h1
  · exact ((webSearch_failure_isolation "q" (.ok altOnlyHtml) c1PageFetch
      (by intro i e h; simp only [c1PageFetch] at h; cases h; decide)).1 0
      ⟨"T", "https://e.co", "e.co", "S", none, some "fetch failed"⟩ h1).1

/-! ## `normalizePhoneNumber` (C7) -/

theorem isPlus1Ten_not_isOneElevenDigits (l : List Char)
    (h : isPlus1Ten l = true) : isOneElevenDigits l = false := by
  unfold isOneElevenDigits
  split
  next rest =>
    exfalso
    rw [show isPlus1Ten ('1' :: rest) = false from rfl] at h
    exact Bool.false_ne_true h
  next => rfl

theorem isTenDigits_not_isPlus1Ten (l : List Char)
    (h : isTenDigits l = true) : isPlus1Ten l = false := by
  unfold isPlus1Ten
  split
  next rest =>
    exfalso
    simp only [isTenDigits, List.all_cons, Bool.and_eq_true, decide_eq_true_eq] at h
    exact absurd h.2.1 (by decide)
  next => rfl

theorem isTenDigits_not_isOneElevenDigits (l : List Char)
    (h : isTenDigits l = true) : isOneElevenDigits l = false := by
  unfold isOneElevenDigits
  split
  next rest =>
    simp only [isTenDigits, List.length_cons, decide_eq_true_eq, Bool.and_eq_true] at h
    have hr : rest.length = 9 := by omega
    simp [hr]
  next => rfl

/-- C7 (amended): after the source's cleaning — which keeps digits and
every `+`, not only a leading one — `normalizePhoneNumber` returns a
non-empty (singleton) list and never fails; a cleaned `+1`-plus-10-digits
input yields exactly itself, `1`-plus-10-digits yields `+` prepended, and
10 digits yield `+1` prepended. -/
theorem normalizePhoneNumber_amended (s : String) :
    normalizePhoneNumber s ≠ [] ∧
    (isPlus1Ten (cleanPhone s.toList) = true →
      normalizePhoneNumber s = [String.mk (cleanPhone s.toList)]) ∧
    (isOneElevenDigits (cleanPhone s.toList) = true →
      normalizePhoneNumber s = [String.mk ('+' :: cleanPhone s.toList)]) ∧
    (isTenDigits (cleanPhone s.toList) = true →
      normalizePhoneNumber s = [String.mk ('+' :: '1' :: cleanPhone s.toList)]) := by
  refine ⟨?_, ?_, ?_, ?_⟩
  · simp only [normalizePhoneNumber]
    split_ifs <;> simp
  · intro h
    simp only [String.toList] at h
    simp [normalizePhoneNumber, String.toList, h]
  · intro h
    simp only [String.toList] at h
    have h1 : isPlus1Ten (cleanPhone s.data) = false := by
      by_contra hc
      have := isPlus1Ten_not_isOneElevenDigits (cleanPhone s.data)
        (by revert hc; cases isPlus1Ten (cleanPhone s.data) <;> simp)
      simp [this] at h
    simp [normalizePhoneNumber, String.toList, h, h1]
  · intro h
    simp only [String.toList] at h
    have h1 := isTenDigits_not_isPlus1Ten (cleanPhone s.data) h
    have h2 := isTenDigits_not_isOneElevenDigits (cleanPhone s.data) h
    simp [normalizePhoneNumber, String.toList, h, h1, h2]

theorem normalizePhoneNumber_amended_witness :
    normalizePhoneNumber "+1 (555) 123-4567" = ["+15551234567"] ∧
    normalizePhoneNumber "5551234567" = ["+15551234567"] ∧
    normalizePhoneNumber "155-5123-4567" = ["+15551234567"] := by
  refine ⟨?_, ?_, ?_⟩
  · have h := (normalizePhoneNumber_amended "+1 (555) 123-4567").2.1 (by decide)
    exact h.trans (by decide)
  · have h := (normalizePhoneNumber_amended "5551234567").2.2.2 (by decide)
    exact h.trans (by decide)
  · have h := (normalizePhoneNumber_amended "155-5123-4567").2.2.1 (by decide)
    exact h.trans (by decide)

/-! ## Search-result extraction (C5, C6) -/

/-- C5: whenever the primary extractor yields zero results on a fetched
page and the looser alternative yields at least one, `searchDuckDuckGo`
returns the alternative's non-empty list with no error; when both yield
zero, it returns an empty list with the descriptive error string
(webSearch.ts lines 163–185). -/
theorem searchDuckDuckGo_fallback (q html : String) :
    (extractDDGResults html.toList = [] →
      extractDDGResultsAlternative html.toList ≠ [] →
      searchDuckDuckGo q (.ok html) =
        { query := q, results := extractDDGResultsAlternative html.toList,
          error := none }) ∧
    (extractDDGResults html.toList = [] →
      extractDDGResultsAlternative html.toList = [] →
      searchDuckDuckGo q (.ok html) =
        { query := q, results := [],
          error := some "No results found or couldn't parse results" }) := by
  constructor
  · intro h1 h2
    simp only [String.toList] at h1 h2
    simp [searchDuckDuckGo, String.toList, h1, h2]
  · intro h1 h2
    simp only [String.toList] at h1 h2
    simp [searchDuckDuckGo, String.toList, h1, h2]

set_option maxRecDepth 100000 in
theorem searchDuckDuckGo_fallback_witness :
    searchDuckDuckGo "q" (.ok altOnlyHtml) =
      { query := "q"
        results := extractDDGResultsAlternative altOnlyHtml.toList
        error := none } :=
  (searchDuckDuckGo_fallback "q" altOnlyHtml).1 (by decide) (by decide)

/-- C6 (amended): `extractDDGResults` caps its output at 10 results; a block
whose title or URL pattern fails to match contributes nothing; a block whose
title and URL patterns match but which lacks the display-URL and snippet
anchors contributes a result with empty snippet and the destination URL's
hostname as display URL — provided `decodeURIComponent` succeeds on the
captured URL and the decoded URL parses (`new URL` does not throw);
otherwise the `catch` silently skips the block. -/
theorem extractDDGResults_block_behavior :
    (∀ html, (extractDDGResults html).length ≤ 10) ∧
    (∀ block, matchGroup1 false ddgTitleRe block = none ∨
        matchGroup1 false ddgUrlRe block = none → ddgProcessBlock block = none) ∧
    (∀ block tc uc d,
      matchGroup1 false ddgTitleRe block = some tc →
      matchGroup1 false ddgUrlRe block = some uc →
      matchGroup1 false ddgDisplayUrlRe block = none →
      matchGroup1 false ddgSnippetRe block = none →
      jsDecodeURIComponent uc = some d →
      (∀ host, urlHostname d = some host →
        ddgProcessBlock block = some ⟨String.mk (cleanHTML tc),
          String.mk d, String.mk host, ""⟩) ∧
      (urlHostname d = none → ddgProcessBlock block = none)) := by
  refine ⟨?_, ?_, ?_⟩
  · intro html
    calc (extractDDGResults html).length
        ≤ ((ddgBlocks html).take 10).length := List.length_filterMap_le _ _
      _ ≤ 10 := by simp [List.length_take]
  · intro block h
    rcases h with h | h
    · simp [ddgProcessBlock, h]
    · rcases htm : matchGroup1 false ddgTitleRe block with _ | t <;>
        simp [ddgProcessBlock, htm, h]
  · intro block tc uc d ht hu hd hs hdec
    constructor
    · intro host hh
      simp [ddgProcessBlock, ht, hu, hdec, hd, hs, hh]
    · intro hh
      simp [ddgProcessBlock, ht, hu, hdec, hd, hs, hh]

set_option maxRecDepth 100000 in
theorem extractDDGResults_block_behavior_witness :
    ddgProcessBlock goodBlock.toList =
      some ⟨String.mk (cleanHTML "T".toList), String.mk "https://e.co".toList,
        String.mk "e.co".toList, ""⟩ :=
  (((extractDDGResults_block_behavior).2.2 goodBlock.toList
      "T".toList "https%3A%2F%2Fe.co".toList "https://e.co".toList
      (by decide) (by decide) (by decide) (by decide) (by decide)).1
    "e.co".toList (by decide))

set_option maxRecDepth 100000 in
/-- C6 (counterexample): on `badBlockHtml` the page has exactly one result
block, its title and URL patterns both match (it is "missing only the
snippet or display URL"), so the claim requires a contributed result with
`displayUrl` derived from the destination URL's hostname — but the decoded
destination `notaurl` has no hostname (`new URL` throws), the `catch` skips
the block, and the extractor returns no result at all. -/
theorem extractDDGResults_counterexample :
    ddgBlocks badBlockHtml.toList = [badBlock.toList] ∧
    matchGroup1 false ddgTitleRe badBlock.toList = some "T".toList ∧
    matchGroup1 false ddgUrlRe badBlock.toList = some "notaurl".toList ∧
    matchGroup1 false ddgDisplayUrlRe badBlock.toList = none ∧
    matchGroup1 false ddgSnippetRe badBlock.toList = none ∧
    extractDDGResults badBlockHtml.toList = [] := by
  refine ⟨by decide, by decide, by decide, by decide, by decide, by decide⟩

/-- C7 (counterexample): the claim describes the cleaning as removing all
characters except digits and a *leading* `+`.  On `"555+1234567"` that
cleaning yields the 10-digit string `"5551234567"`, so the claim requires
the output `["+15551234567"]`; the source keeps the interior `+`
(`/[^0-9+]/g`) and returns `["+1555+1234567"]` instead. -/
theorem normalizePhoneNumber_counterexample :
    claimClean "555+1234567".toList = "5551234567".toList ∧
    isTenDigits (claimClean "555+1234567".toList) = true ∧
    normalizePhoneNumber "555+1234567" = ["+1555+1234567"] ∧
    normalizePhoneNumber "555+1234567" ≠ ["+15551234567"] := by
  refine ⟨by decide, by decide, by decide, by decide⟩

/-! ## The message row mapping (C8) and `decodeAttributedBody` (C9) -/

/-- C8 (amended): a row with NULL content and attachment flag 0 contributes
nothing to the output of either `readMessages` or `getUnreadMessages`; a
row with the attachment flag set, NULL text and no subject is included with
content `"[No text content]"`; the attachment-count marker is appended and
the `attachments` field populated exactly when the attachment lookup
resolves at least one filename — when it resolves none (a lookup failure or
stale flag), the content stays the bare placeholder and `attachments` is
absent.  (`content_type = 2` is forced by the SQL `CASE`: `content` is NULL
exactly when both the text and the attributed body are.) -/
theorem messageRow_mapping (res : Nat → List String) (dc : String → String)
    (r : MessageRow) :
    (r.content = none → r.cache_has_attachments = 0 →
      (∀ rows, readMessagesRows res dc (r :: rows) = readMessagesRows res dc rows) ∧
      (∀ rows, getUnreadMessagesRows res dc (r :: rows) = getUnreadMessagesRows res dc rows)) ∧
    (r.content = none → r.cache_has_attachments = 1 → r.subject = none →
      r.content_type = 2 →
      ∃ m, readMessagesRows res dc [r] = [m] ∧
        getUnreadMessagesRows res dc [r] = [m] ∧
        (res r.message_id = [] →
          m.content = "[No text content]" ∧ m.attachments = none) ∧
        (res r.message_id ≠ [] →
          m.content = "[No text content]\n[Attachments: " ++
            toString (res r.message_id).length ++ "]" ∧
          m.attachments = some (res r.message_id))) := by
  constructor
  · intro h1 h2
    constructor
    · intro rows
      simp [readMessagesRows, keepRow, h1, h2]
    · intro rows
      simp [getUnreadMessagesRows, keepRow, h1, h2]
  · intro h1 h2 h3 h4
    have hkeep : keepRow r = true := by simp [keepRow, h2]
    have hurl : matchGroup1 false plainTextUrlRe [] = none := rfl
    refine ⟨processMessageRow res dc r, ?_, ?_, ?_, ?_⟩
    · simp [readMessagesRows, hkeep]
    · simp [getUnreadMessagesRows, hkeep]
    · intro hres
      constructor
      · simp [processMessageRow, h1, h2, h3, h4, hres, subjTruthy, hurl]
      · simp [processMessageRow, h1, h2, h3, h4, hres, subjTruthy, hurl]
    · intro hres
      have hlen : 0 < (res r.message_id).length := List.length_pos.mpr hres
      constructor
      · simp [processMessageRow, h1, h2, h3, h4, hlen, subjTruthy, hurl]
      · simp [processMessageRow, h1, h2, h3, h4, hlen, subjTruthy, hurl]

theorem messageRow_mapping_witness :
    ∃ m, readMessagesRows (fun _ => ["a.heic"]) (fun d => d) [c8RowAttach] = [m] ∧
      m.content = "[No text content]\n[Attachments: 1]" ∧
      m.attachments = some ["a.heic"] := by
  obtain ⟨m, hm1, _, _, hm4⟩ :=
    (messageRow_mapping (fun _ => ["a.heic"]) (fun d => d) c8RowAttach).2
      rfl rfl rfl rfl
  obtain ⟨hc, ha⟩ := hm4 (by decide)
  exact ⟨m, hm1, hc.trans (by decide), ha⟩

/-- C8 (counterexample): for the store row with NULL text, attachment flag
set and subject `"Hi"`, and an attachment lookup that resolves no filenames,
the claim requires content `"[No text content]"` followed by an
attachment-count marker and a populated `attachments` field; the code
produces content `"Subject: Hi\n"` with no placeholder, no marker, and no
`attachments` field at all. -/
theorem messageRow_counterexample :
    readMessagesRows (fun _ => []) (fun d => d) [c8RowSubject] =
      [⟨"Subject: Hi\n", "2024-01-01 10:00:00", "+15551234567", false, none, none⟩] ∧
    ("Subject: Hi\n" : String) ≠ "[No text content]\n[Attachments: 0]" := by
  exact ⟨by decide, by decide⟩

theorem pickText_characterization (content : List Char) (ps : List RE) :
    ∀ acc, pickText content ps acc =
      (firstLongCapture content ps).getD ((lastTruthyCapture content ps).getD acc) := by
  induction ps with
  | nil => intro acc; simp [pickText, firstLongCapture, lastTruthyCapture]
  | cons p ps ih =>
    intro acc
    unfold pickText firstLongCapture lastTruthyCapture
    cases hm : matchGroup1 false p content with
    | none =>
      cases hlast : lastTruthyCapture content ps <;> simp [ih, hlast]
    | some t =>
      by_cases ht : t = []
      · cases hlast : lastTruthyCapture content ps <;> simp [ht, ih, hlast]
      · by_cases hl : t.length > 5
        · simp [ht, hl]
        · simp [ht, hl, ih t]
          cases hlast : lastTruthyCapture content ps <;> simp [hlast]

/-- C9: `decodeAttributedBody` is total — hex decoding truncates instead of
throwing, `buffer.toString()` decodes lossily, regex matching and string
replaces cannot throw, so the `catch` returning the placeholder is
unreachable and every input yields a `{text, url?}` record.  A text-pattern
capture of 5 or fewer characters does not stop the pattern loop: the chosen
text is the first capture longer than 5 characters, and only if no pattern
produces one does the last (shorter) capture stand.  When no text pattern
and no URL pattern matches and the generic cleanup pass yields at most 5
characters, the result is exactly the fixed placeholder with no URL. -/
theorem decodeAttributedBody_spec (hexString : String) :
    pickText (utf8Lossy (hexDecodeLossy hexString.toList)) attrTextPatterns [] =
      (firstLongCapture (utf8Lossy (hexDecodeLossy hexString.toList))
          attrTextPatterns).getD
        ((lastTruthyCapture (utf8Lossy (hexDecodeLossy hexString.toList))
            attrTextPatterns).getD []) ∧
    (pickText (utf8Lossy (hexDecodeLossy hexString.toList)) attrTextPatterns [] = [] →
      pickUrl (utf8Lossy (hexDecodeLossy hexString.toList)) attrUrlPatterns = none →
      (attrReadableText (utf8Lossy (hexDecodeLossy hexString.toList))).length ≤ 5 →
      decodeAttributedBody hexString = { text := notReadable, url := none }) := by
  constructor
  · exact pickText_characterization _ attrTextPatterns []
  · intro h1 h2 h3
    have h3n : ¬ (attrReadableText (utf8Lossy (hexDecodeLossy hexString.toList))).length > 5 := by
      omega
    simp only [String.toList] at h1 h2 h3n
    simp [decodeAttributedBody, String.toList, h1, h2, h3n]

theorem decodeAttributedBody_spec_witness :
    decodeAttributedBody "414243" = { text := notReadable, url := none } :=
  (decodeAttributedBody_spec "414243").2 (by decide) (by decide) (by decide)

end McpApple
